import Mathlib

/-!
Verification of the `diskinfo` library (Python) against its natural-language
specification.  The definitions below are a shallow embedding, translated from
`src/diskinfo/disk.py`, `src/diskinfo/utils.py`, `src/diskinfo/diskinfo.py`
and `src/diskinfo/disksmart.py`:

* Python strings are Lean `String`s; the handful of `str` / `re` operations the
  code uses (`in`, `startswith`, `strip`, `splitlines`, `split`,
  `re.search(r"[\dxX]+$")`, `re.search(r"\d+")`, `re.search(r"[\d,]+")`,
  `re.sub(",", "", s)`, `re.sub(" +", " ", s)`) are modelled by executable
  char-list functions defined here.
* Python exceptions become the `Except PyErr` monad; `PyErr` distinguishes
  `ValueError`, `RuntimeError`, `IndexError` (list index out of range),
  `AttributeError` (access of a never-assigned instance attribute) and the
  `OSError` of a failed `os.readlink`.
* The operating-system collaborators (`/sys` attribute files, the udev
  property database, `os.listdir("/sys/block/")`, `os.path.exists`,
  `os.readlink`, `glob.glob`) are a `SysEnv` record of pure lookup functions;
  `subprocess.run` of `smartctl` is abstracted to the list of stdout lines
  handed to the parsing part of `Disk.get_smart_data`.
* Python `float` arithmetic in `size_in_hrf` is modelled exactly over `ℚ`.
-/

/-! ## Python string primitives -/

/-- `needle` matches at the head of `hay` (char-list form). -/
def subAt : List Char → List Char → Bool
  | [], _ => true
  | _ :: _, [] => false
  | a :: as, b :: bs => a == b && subAt as bs

/-- Python `needle in hay` for char lists: `needle` occurs somewhere in `hay`. -/
def hasSub (needle : List Char) : List Char → Bool
  | [] => needle.isEmpty
  | c :: rest => subAt needle (c :: rest) || hasSub needle rest

/-- Python `sub in s` (substring containment). -/
def pyIn (sub s : String) : Bool := hasSub sub.data s.data

/-- Python `s.startswith(pre)`. -/
def startsWithS (s pre : String) : Bool := subAt pre.data s.data

/-- Python `s.strip()` (ASCII whitespace at both ends). -/
def pyStrip (s : String) : String :=
  String.mk (((s.data.dropWhile Char.isWhitespace).reverse.dropWhile Char.isWhitespace).reverse)

/-- Split a char list at every newline character. -/
def splitNl : List Char → List (List Char)
  | [] => [[]]
  | c :: rest =>
    if c == '\n' then [] :: splitNl rest
    else
      match splitNl rest with
      | [] => [[c]]
      | l :: ls => (c :: l) :: ls

/-- Python `s.splitlines()` (newline only; a trailing newline yields no extra
empty element). -/
def pySplitlines (s : String) : List String :=
  let parts := (splitNl s.data).map String.mk
  if parts.getLast? = some "" then parts.dropLast else parts

/-- Accumulator pass for whitespace splitting. -/
def wordsAux : List Char → List Char → List (List Char)
  | [], cur => if cur.isEmpty then [] else [cur.reverse]
  | c :: rest, cur =>
    if c.isWhitespace then
      if cur.isEmpty then wordsAux rest [] else cur.reverse :: wordsAux rest []
    else wordsAux rest (c :: cur)

/-- Python `s.split()` with no argument: split on whitespace runs, no empties. -/
def pySplit (s : String) : List String := (wordsAux s.data []).map String.mk

/-- Python `re.sub(" +", " ", s)`: collapse runs of spaces into single spaces. -/
def collapseSpacesL : List Char → List Char
  | [] => []
  | [c] => [c]
  | c :: d :: rest =>
    if c == ' ' && d == ' ' then collapseSpacesL (d :: rest)
    else c :: collapseSpacesL (d :: rest)

/-- Python `re.sub(" +", " ", s)` on strings. -/
def collapseSpaces (s : String) : String := String.mk (collapseSpacesL s.data)

/-- Python `re.sub(",", "", s)`: delete every comma. -/
def pyRemoveCommas (s : String) : String := String.mk (s.data.filter (fun c => c != ','))

/-- The character class `[\dxX]` of the `Critical Warning` regex. -/
def isHexTokenChar (c : Char) : Bool := c.isDigit || c == 'x' || c == 'X'

/-- The character class `[\d,]` of the thousands-separated numeric regexes. -/
def isDigitComma (c : Char) : Bool := c.isDigit || c == ','

/-- Python `re.search(p+ ++ "$", s)` for a character class `p`: the maximal
nonempty run of `p`-characters ending at the end of the string, if any. -/
def trailRun (p : Char → Bool) (s : String) : Option String :=
  let r := (s.data.reverse.takeWhile p).reverse
  if r.isEmpty then none else some (String.mk r)

/-- Python `re.search(p+, s)` for a character class `p`: the leftmost maximal
nonempty run of `p`-characters, if any. -/
def headRun (p : Char → Bool) (s : String) : Option String :=
  let r := (s.data.dropWhile (fun c => !p c)).takeWhile p
  if r.isEmpty then none else some (String.mk r)

/-- Value of a decimal digit list, `none` when empty or a non-digit occurs. -/
def decDigitsVal : List Char → Option Nat
  | [] => none
  | [c] => if c.isDigit then some (c.toNat - '0'.toNat) else none
  | c :: rest =>
    if c.isDigit then
      match decDigitsVal rest with
      | some r => some ((c.toNat - '0'.toNat) * 10 ^ rest.length + r)
      | none => none
    else none

/-- Value of one hex digit (code points: 0-9 are 48-57, a-f are 97-102,
A-F are 65-70). -/
def hexDigitVal (c : Char) : Option Nat :=
  let n := c.toNat
  if 48 ≤ n && n ≤ 57 then some (n - 48)
  else if 97 ≤ n && n ≤ 102 then some (n - 87)
  else if 65 ≤ n && n ≤ 70 then some (n - 55)
  else none

/-- Value of a hex digit list, `none` when empty or a non-hex-digit occurs. -/
def hexDigitsVal : List Char → Option Nat
  | [] => none
  | [c] => hexDigitVal c
  | c :: rest =>
    match hexDigitVal c, hexDigitsVal rest with
    | some d, some r => some (d * 16 ^ rest.length + r)
    | _, _ => none

/-- Python `int(s)` (base 10): strip, optional sign, decimal digits;
`none` models the `ValueError`. -/
def pyIntDec (s : String) : Option Int :=
  match (pyStrip s).data with
  | '-' :: ds => (decDigitsVal ds).map (fun n => -(n : Int))
  | '+' :: ds => (decDigitsVal ds).map (fun n => (n : Int))
  | ds => (decDigitsVal ds).map (fun n => (n : Int))

/-- Python `int(s, 16)`: strip, optional `0x`/`0X` prefix, hex digits;
`none` models the `ValueError`. -/
def pyIntHex (s : String) : Option Nat :=
  match (pyStrip s).data with
  | '0' :: 'x' :: rest => hexDigitsVal rest
  | '0' :: 'X' :: rest => hexDigitsVal rest
  | ds => hexDigitsVal ds

/-- Python `os.path.basename`: the part after the last slash. -/
def basenamePy (p : String) : String :=
  String.mk ((p.data.reverse.takeWhile (fun c => c != '/')).reverse)

/-! ## Python exceptions -/

/-- The Python exceptions that the modelled code can raise. -/
inductive PyErr where
  | valueError (msg : String)
  | runtimeError (msg : String)
  | indexError
  | attributeError
  | osError
  deriving DecidableEq, Repr

instance {ε α : Type} [DecidableEq ε] [DecidableEq α] : DecidableEq (Except ε α) := fun a b =>
  match a, b with
  | .ok x, .ok y => if h : x = y then .isTrue (by rw [h]) else .isFalse (by simp [h])
  | .ok _, .error _ => .isFalse (by simp)
  | .error _, .ok _ => .isFalse (by simp)
  | .error x, .error y => if h : x = y then .isTrue (by rw [h]) else .isFalse (by simp [h])

/-! ## SMART data model (`disksmart.py`) -/

/-- One row of the legacy (ATA/SCSI) SMART attribute table
(`SmartAttribute` in `disksmart.py`; field values as `disk.py` stores them:
`flag`, `type`, `updated`, `when_failed` are kept as strings). -/
structure SmartAttribute where
  id : Int
  attribute_name : String
  flag : String
  value : Int
  worst : Int
  thresh : Int
  type : String
  updated : String
  when_failed : String
  raw_value : Int
  deriving DecidableEq, Repr

/-- The NVMe health-log attributes (`NvmeAttributes` in `disksmart.py`).
`disk.py` assigns only the nine fields below; a field the parser never
assigned is `none` (in Python: an absent instance attribute). -/
structure NvmeAttributes where
  critical_warning : Option Nat := none
  temperature : Option Nat := none
  data_units_read : Option Nat := none
  data_units_written : Option Nat := none
  power_cycles : Option Nat := none
  power_on_hours : Option Nat := none
  unsafe_shutdowns : Option Nat := none
  media_and_data_integrity_errors : Option Nat := none
  error_information_log_entries : Option Nat := none
  deriving DecidableEq, Repr

/-- The parser's output envelope (`DiskSmartData` in `disksmart.py`).
`healthy`, `smart_attributes` and `nvme_attributes` are `none` when
`get_smart_data` never assigned them.  (The Python object also carries the
raw stdout text and the process return code verbatim; these pass-through
fields are not modelled.) -/
structure DiskSmartData where
  standby_mode : Bool
  healthy : Option Bool := none
  smart_attributes : Option (List SmartAttribute) := none
  nvme_attributes : Option NvmeAttributes := none
  deriving DecidableEq, Repr

/-! ## The SMART telemetry parser (`Disk.get_smart_data`, `disk.py` 639-777) -/

/-- `while not (p output_lines[0]): del output_lines[0]` — returns the list
from the first element satisfying `p`; exhausting the list raises
`IndexError`. -/
def skipUntil (p : String → Bool) : List String → Except PyErr (List String)
  | [] => .error .indexError
  | l :: rest => if p l then .ok (l :: rest) else skipUntil p rest

/-- One pass of the NVMe attribute loop body over a single line
(`disk.py` 679-732): each recognized label updates its field; a recognized
label whose value pattern does not match raises
`RuntimeError("Error in processing this line: …")`. -/
def nvmeStep (na : NvmeAttributes) (line : String) : Except PyErr NvmeAttributes := do
  let na ← if pyIn "Critical Warning" line then
      match trailRun isHexTokenChar line with
      | some g =>
        match pyIntHex g with
        | some v => pure { na with critical_warning := some v }
        | none => throw (.valueError ("invalid literal for int() with base 16: " ++ g))
      | none => throw (.runtimeError ("Error in processing this line: " ++ line))
    else pure na
  let na ← if startsWithS line "Temperature:" then
      match headRun Char.isDigit line with
      | some g =>
        match pyIntDec g with
        | some v => pure { na with temperature := some v.toNat }
        | none => throw (.valueError ("invalid literal for int() with base 10: " ++ g))
      | none => throw (.runtimeError ("Error in processing this line: " ++ line))
    else pure na
  let na ← if pyIn "Data Units Read" line then
      match headRun isDigitComma line with
      | some g =>
        match pyIntDec (pyRemoveCommas g) with
        | some v => pure { na with data_units_read := some v.toNat }
        | none => throw (.valueError ("invalid literal for int() with base 10: " ++ pyRemoveCommas g))
      | none => throw (.runtimeError ("Error in processing this line: " ++ line))
    else pure na
  let na ← if pyIn "Data Units Written" line then
      match headRun isDigitComma line with
      | some g =>
        match pyIntDec (pyRemoveCommas g) with
        | some v => pure { na with data_units_written := some v.toNat }
        | none => throw (.valueError ("invalid literal for int() with base 10: " ++ pyRemoveCommas g))
      | none => throw (.runtimeError ("Error in processing this line: " ++ line))
    else pure na
  let na ← if pyIn "Power Cycles" line then
      match trailRun isDigitComma line with
      | some g =>
        match pyIntDec (pyRemoveCommas g) with
        | some v => pure { na with power_cycles := some v.toNat }
        | none => throw (.valueError ("invalid literal for int() with base 10: " ++ pyRemoveCommas g))
      | none => throw (.runtimeError ("Error in processing this line: " ++ line))
    else pure na
  let na ← if pyIn "Power On Hours" line then
      match trailRun isDigitComma line with
      | some g =>
        match pyIntDec (pyRemoveCommas g) with
        | some v => pure { na with power_on_hours := some v.toNat }
        | none => throw (.valueError ("invalid literal for int() with base 10: " ++ pyRemoveCommas g))
      | none => throw (.runtimeError ("Error in processing this line: " ++ line))
    else pure na
  let na ← if pyIn "Unsafe Shutdowns" line then
      match trailRun isDigitComma line with
      | some g =>
        match pyIntDec (pyRemoveCommas g) with
        | some v => pure { na with unsafe_shutdowns := some v.toNat }
        | none => throw (.valueError ("invalid literal for int() with base 10: " ++ pyRemoveCommas g))
      | none => throw (.runtimeError ("Error in processing this line: " ++ line))
    else pure na
  let na ← if pyIn "Media and Data Integrity Errors" line then
      match trailRun isDigitComma line with
      | some g =>
        match pyIntDec (pyRemoveCommas g) with
        | some v => pure { na with media_and_data_integrity_errors := some v.toNat }
        | none => throw (.valueError ("invalid literal for int() with base 10: " ++ pyRemoveCommas g))
      | none => throw (.runtimeError ("Error in processing this line: " ++ line))
    else pure na
  let na ← if pyIn "Error Information Log Entries" line then
      match trailRun isDigitComma line with
      | some g =>
        match pyIntDec (pyRemoveCommas g) with
        | some v => pure { na with error_information_log_entries := some v.toNat }
        | none => throw (.valueError ("invalid literal for int() with base 10: " ++ pyRemoveCommas g))
      | none => throw (.runtimeError ("Error in processing this line: " ++ line))
    else pure na
  pure na

/-- `while output_lines[0]: … ; del output_lines[0]` over the NVMe attribute
block: runs `nvmeStep` on every line until the first empty line; running off
the end of the list raises `IndexError`. -/
def nvmeLoop : List String → NvmeAttributes → Except PyErr NvmeAttributes
  | [], _ => .error .indexError
  | l :: rest, na =>
    if l == "" then .ok na
    else
      match nvmeStep na l with
      | .error e => .error e
      | .ok na2 => nvmeLoop rest na2

/-- `split[i]`, raising `IndexError` when out of range. -/
def getIdx (l : List String) (i : Nat) : Except PyErr String :=
  match l.get? i with
  | some v => .ok v
  | none => .error .indexError

/-- Python `int(split[i])` after indexing. -/
def toIntPy (s : String) : Except PyErr Int :=
  match pyIntDec s with
  | some v => .ok v
  | none => .error (.valueError ("invalid literal for int() with base 10: " ++ s))

/-- One row of the legacy SMART attribute table (`disk.py` 752-765):
normalize multiple spaces, split on whitespace, convert the ten positional
fields in source order. -/
def parseAtaRow (line : String) : Except PyErr SmartAttribute := do
  let split := pySplit (collapseSpaces line)
  let s0 ← getIdx split 0
  let idv ← toIntPy s0
  let s1 ← getIdx split 1
  let s2 ← getIdx split 2
  let s3 ← getIdx split 3
  let value ← toIntPy s3
  let s4 ← getIdx split 4
  let worst ← toIntPy s4
  let s5 ← getIdx split 5
  let thresh ← toIntPy s5
  let s6 ← getIdx split 6
  let s7 ← getIdx split 7
  let s8 ← getIdx split 8
  let s9 ← getIdx split 9
  let raw ← toIntPy s9
  pure { id := idv, attribute_name := s1, flag := s2, value := value, worst := worst,
         thresh := thresh, type := s6, updated := s7, when_failed := s8, raw_value := raw }

/-- `while output_lines[0]: … append … ; del output_lines[0]` over the legacy
attribute rows (`disk.py` 751-768). -/
def ataLoop : List String → List SmartAttribute → Except PyErr (List SmartAttribute)
  | [], _ => .error .indexError
  | l :: rest, acc =>
    if l == "" then .ok acc
    else
      match parseAtaRow l with
      | .error e => .error e
      | .ok sa => ataLoop rest (acc ++ [sa])

/-- The stdout-parsing part of `Disk.get_smart_data` (`disk.py` 639-777).
`isNvme` is `self.is_nvme()`; `stdoutLines` is `result.stdout.splitlines()`.
The subprocess invocation itself (argument assembly and `subprocess.run`) is
outside the model. -/
def get_smart_data (isNvme : Bool) (stdoutLines : List String) : Except PyErr DiskSmartData :=
  -- del output_lines[0:3]  (three-line banner/copyright prologue)
  let output_lines := stdoutLines.drop 3
  match output_lines with
  | [] => .error .indexError
  | l0 :: rest =>
    if startsWithS l0 "===" then
      -- === START OF SMART DATA SECTION ===  is removed, the next line is the
      -- overall-health line
      match rest with
      | [] => .error .indexError
      | h :: rest2 =>
        let healthy := pyIn "PASSED" h
        if isNvme then
          match skipUntil (fun l => startsWithS l "Critical Warning") (h :: rest2) with
          | .error e => .error e
          | .ok afterSkip =>
            match nvmeLoop afterSkip {} with
            | .error e => .error e
            | .ok na =>
              .ok { standby_mode := false, healthy := some healthy,
                    smart_attributes := none, nvme_attributes := some na }
        else
          match skipUntil (fun l => startsWithS l "ID#") (h :: rest2) with
          | .error e => .error e
          | .ok afterSkip =>
            match ataLoop (afterSkip.drop 1) [] with
            | .error e => .error e
            | .ok rows =>
              .ok { standby_mode := false, healthy := some healthy,
                    smart_attributes := some rows, nvme_attributes := none }
    else
      -- Process error messages or standby state
      if pyIn "Smartctl open device" l0 then
        .error (.runtimeError ("Error: " ++ l0))
      else
        .ok { standby_mode := pyIn "STANDBY" l0, healthy := none,
              smart_attributes := none, nvme_attributes := none }

/-! ## System environment for `Disk.__init__` -/

/-- The operating-system collaborators read by `Disk.__init__` and
`Disk.get_temperature`, as pure lookups:

* `sysBlock` — `os.listdir("/sys/block/")` in listing order;
* `files`  — content of a path for `open(path).read()`; `none` models
  `IOError`/`FileNotFoundError` (which `_read_file`/`_read_udev_property`
  hide);
* `pathExists` — `os.path.exists`;
* `readlink` — `os.readlink`, `none` when the symlink is absent (`OSError`);
* `glob` — `glob.glob` of a pattern string. -/
structure SysEnv where
  sysBlock : List String
  files : String → Option String
  pathExists : String → Bool
  readlink : String → Option String
  glob : String → List String

/-- `Disk._read_file` (`disk.py` 779-796): read, hide errors as empty, strip. -/
def readFile (env : SysEnv) (path : String) : String :=
  pyStrip ((env.files path).getD "")

/-- `line[pos:]` where `pos` is the first occurrence of `needle`, as used in
`_read_udev_path`; `none` when `needle` does not occur (`find` returned -1). -/
def fromSubL (needle : List Char) : List Char → Option (List Char)
  | [] => if needle.isEmpty then some [] else none
  | c :: rest =>
    if subAt needle (c :: rest) then some (c :: rest)
    else fromSubL needle rest

/-- `line[pos+len(prop):]` for the first occurrence, as used in
`_read_udev_property`. -/
def afterSubL (needle : List Char) (l : List Char) : Option (List Char) :=
  (fromSubL needle l).map (fun suf => suf.drop needle.length)

/-- `Disk._read_udev_property` (`disk.py` 798-826): scan the udev data file
`/run/udev/data/b<device_id>`, the last line containing the property wins,
the value is the part after the property key, stripped. -/
def readUdevProperty (env : SysEnv) (device_id : String) (udev_property : String) : String :=
  let content := (env.files ("/run/udev/data/b" ++ device_id)).getD ""
  let file_content := pySplitlines content
  let result := file_content.foldl
    (fun acc line =>
      match afterSubL udev_property.data line.data with
      | some suf => String.mk suf
      | none => acc) ""
  pyStrip result

/-- `Disk._read_udev_path` (`disk.py` 828-862): collect
`"/dev/" + line[pos:].strip()` for every line of the udev data file containing
`disk/by-id/` (resp. `disk/by-path/`). -/
def readUdevPath (env : SysEnv) (device_id : String) (byid : Bool) : List String :=
  let content := (env.files ("/run/udev/data/b" ++ device_id)).getD ""
  let file_content := pySplitlines content
  let udev_property := if byid then "disk/by-id/" else "disk/by-path/"
  file_content.filterMap
    (fun line => (fromSubL udev_property.data line.data).map
      (fun suf => "/dev/" ++ pyStrip (String.mk suf)))

/-! ## The Disk entity (`Disk.__init__`, `disk.py` 89-194) -/

/-- The attributes of a constructed `Disk` (`disk.py` 71-87).  `type` uses
the `DiskType` constants HDD=1, SSD=2, NVME=4 from `disktype.py`.
`hwmon_path` is `none` when `__init__` never assigned `__hwmon_path`. -/
structure DiskRec where
  name : String
  path : String
  byid_path : List String
  bypath_path : List String
  wwn : String
  model : String
  serial_number : String
  firmware : String
  type : Nat
  size : Int
  device_id : String
  physical_block_size : Int
  logical_block_size : Int
  part_table_type : String
  part_table_uuid : String
  hwmon_path : Option String := none
  deriving DecidableEq, Repr

/-- The serial-number scan (`disk.py` 97-104): the first entry of
`/sys/block/` whose udev `ID_SERIAL_SHORT` equals the requested serial. -/
def serialScan (env : SysEnv) (serial_number : String) : Option String :=
  env.sysBlock.find? (fun file =>
    let device_id := readFile env ("/sys/block/" ++ file ++ "/dev")
    let ser := readUdevProperty env device_id "ID_SERIAL_SHORT="
    serial_number == ser)

/-- The WWN scan (`disk.py` 109-116): the first entry of `/sys/block/` whose
udev `ID_WWN` *contains* the requested value as a substring (`wwn in self.__wwn`). -/
def wwnScan (env : SysEnv) (wwn : String) : Option String :=
  env.sysBlock.find? (fun file =>
    let device_id := readFile env ("/sys/block/" ++ file ++ "/dev")
    let w := readUdevProperty env device_id "ID_WWN="
    pyIn wwn w)

/-- Python truthiness of an optional string argument (`if disk_name:`). -/
def truthy : Option String → Bool
  | none => false
  | some s => s != ""

/-- Identifier resolution (`disk.py` 93-128): determine `self.__name` from
exactly the first truthy identifier, in source order. -/
def resolveName (env : SysEnv) (disk_name serial_number wwn byid_name bypath_name :
    Option String) : Except PyErr String :=
  if truthy disk_name then .ok (disk_name.getD "")
  else if truthy serial_number then
    let s := serial_number.getD ""
    match serialScan env s with
    | some f =>
      if f == "" then .error (.valueError ("Invalid serial number (" ++ s ++ ")!"))
      else .ok f
    | none => .error (.valueError ("Invalid serial number (" ++ s ++ ")!"))
  else if truthy wwn then
    let s := wwn.getD ""
    match wwnScan env s with
    | some f =>
      if f == "" then .error (.valueError ("Invalid wwn identifier (" ++ s ++ ")!"))
      else .ok f
    | none => .error (.valueError ("Invalid wwn identifier (" ++ s ++ ")!"))
  else if truthy byid_name then
    match env.readlink ("/dev/disk/by-id/" ++ byid_name.getD "") with
    | some target => .ok (basenamePy target)
    | none => .error .osError
  else if truthy bypath_name then
    match env.readlink ("/dev/disk/by-path/" ++ bypath_name.getD "") with
    | some target => .ok (basenamePy target)
    | none => .error .osError
  else .error (.valueError "Missing disk identifier, Disk() class cannot be initialized.")

/-- The three hwmon probes (`disk.py` 177-194): glob the pattern and keep the
first result when it exists. -/
def probeHwmon (env : SysEnv) (pattern : String) : Option String :=
  match env.glob pattern with
  | [] => none
  | f :: _ => if env.pathExists f then some f else none

/-- hwmon pattern for HDD/SSD disks (`disk.py` 179). -/
def hwmonPatHdd (name : String) : String :=
  "/sys/block/" ++ name ++ "/device/hwmon/hwmon*/temp1_input"

/-- hwmon pattern for NVMe disks on Linux 5.10-5.18 (`disk.py` 185). -/
def hwmonPatNvmeOld (name : String) : String :=
  "/sys/block/" ++ name ++ "/device/device/hwmon/hwmon*/temp1_input"

/-- hwmon pattern for NVMe disks on Linux 5.19+ (`disk.py` 191). -/
def hwmonPatNvmeNew (name : String) : String :=
  "/sys/block/" ++ name ++ "/device/hwmon*/temp1_input"

/-- The hwmon discovery chain (`disk.py` 177-194): the three probes in order,
keeping the first hit; `none` when no probe succeeds (`__hwmon_path` is then
never assigned). -/
def hwmonProbeAll (env : SysEnv) (name : String) : Option String :=
  match probeHwmon env (hwmonPatHdd name) with
  | some f => some f
  | none =>
    match probeHwmon env (hwmonPatNvmeOld name) with
    | some f => some f
    | none =>
      match probeHwmon env (hwmonPatNvmeNew name) with
      | some f => some f
      | none => none

/-- The body of `Disk.__init__` after the name is resolved
(`disk.py` 130-194): existence checks, type classification, attribute reads,
persistent-path existence checks and hwmon discovery. -/
def diskBody (env : SysEnv) (name : String) : Except PyErr DiskRec :=
  let path := "/dev/" ++ name
  if env.pathExists path = false then
    .error (.valueError ("Disk path (" ++ path ++ ") does not exist!"))
  else if env.pathExists ("/sys/block/" ++ name) = false then
    .error (.valueError ("Disk path (" ++ path ++ ") does not exist!"))
  else
    -- Determine disk type (HDD, SSD, NVME); the rotational attribute is
    -- consulted first, the nvme name token then overrides the result.
    let rot := readFile env ("/sys/block/" ++ name ++ "/queue/rotational")
    match (if rot == "1" then .ok 1
           else if rot == "0" then .ok 2
           else .error (PyErr.runtimeError
             ("Disk type cannot be determined based on this value (/sys/block/" ++ name ++
              "/queue/rotational=" ++ rot ++ ")."))
           : Except PyErr Nat) with
    | .error e => .error e
    | .ok t0 =>
      let dtype := if pyIn "nvme" name then 4 else t0
      match toIntPy (readFile env ("/sys/block/" ++ name ++ "/size")) with
      | .error e => .error e
      | .ok size =>
        let modelSys := readFile env ("/sys/block/" ++ name ++ "/device/model")
        let device_id := readFile env ("/sys/block/" ++ name ++ "/dev")
        match toIntPy (readFile env ("/sys/block/" ++ name ++ "/queue/physical_block_size")) with
        | .error e => .error e
        | .ok pbs =>
          match toIntPy (readFile env ("/sys/block/" ++ name ++ "/queue/logical_block_size")) with
          | .error e => .error e
          | .ok lbs =>
            let serial := readUdevProperty env device_id "ID_SERIAL_SHORT="
            let firmware := readUdevProperty env device_id "ID_REVISION="
            let wwn := readUdevProperty env device_id "ID_WWN="
            let ptt := readUdevProperty env device_id "ID_PART_TABLE_TYPE="
            let ptu := readUdevProperty env device_id "ID_PART_TABLE_UUID="
            let modelEnc := readUdevProperty env device_id "ID_MODEL_ENC="
            let model := if modelEnc != "" then modelEnc else modelSys
            let byid := readUdevPath env device_id true
            match byid.find? (fun f => !env.pathExists f) with
            | some f => .error (.runtimeError ("Disk by-id path (" ++ f ++ ") does not exist!"))
            | none =>
              let bypath := readUdevPath env device_id false
              match bypath.find? (fun f => !env.pathExists f) with
              | some f => .error (.runtimeError ("Disk by-path path (" ++ f ++ ") does not exist!"))
              | none =>
                let hwmon := hwmonProbeAll env name
                .ok { name := name, path := path, byid_path := byid, bypath_path := bypath,
                      wwn := wwn, model := model, serial_number := serial,
                      firmware := firmware, type := dtype, size := size,
                      device_id := device_id, physical_block_size := pbs,
                      logical_block_size := lbs, part_table_type := ptt,
                      part_table_uuid := ptu, hwmon_path := hwmon }

/-- `Disk.__init__` (`disk.py` 89-194): resolve the identifier, then build the
attribute record.  (During the serial/WWN scans Python pre-assigns
`__device_id`, `__serial_number`, `__wwn`; all three are unconditionally
overwritten at lines 153-158 before any later use, so the final state is a
function of the resolved name alone.) -/
def diskInit (env : SysEnv) (disk_name serial_number wwn byid_name bypath_name :
    Option String) : Except PyErr DiskRec :=
  match resolveName env disk_name serial_number wwn byid_name bypath_name with
  | .error e => .error e
  | .ok n => diskBody env n

/-- `Disk.get_temperature` (`disk.py` 550-581).  Reading the never-assigned
`self.__hwmon_path` raises `AttributeError`; the guard `if not
self.__hwmon_path` raises the `RuntimeError` only for an assigned empty
value. -/
def get_temperature (env : SysEnv) (d : DiskRec) : Except PyErr Int :=
  match d.hwmon_path with
  | none => .error .attributeError
  | some p =>
    if p == "" then .error (.runtimeError "HWMON file cannot be found for this disk.")
    else
      match toIntPy (readFile env p) with
      | .error e => .error e
      | .ok v => .ok (Int.tdiv v 1000)

/-! ## `size_in_hrf` (`utils.py` 150-220) -/

/-- Metric unit symbols (`utils.py` 182). -/
def metric_units : List String := ["B", "kB", "MB", "GB", "TB", "PB", "EB"]

/-- IEC unit symbols (`utils.py` 183). -/
def iec_units : List String := ["B", "KiB", "MiB", "GiB", "TiB", "PiB", "EiB"]

/-- Legacy unit symbols (`utils.py` 184). -/
def legacy_units : List String := ["B", "KB", "MB", "GB", "TB", "PB", "EB"]

/-- `for index in range(7): if hrf_size < divider: break; hrf_size /= divider`
over the explicit index list `[0, …, 6]`: returns the final `hrf_size` and the
final value of `index` (which stays at the last list element when the loop
runs to the end). -/
def sizeLoop (d : ℚ) : ℚ → List Nat → ℚ × Nat
  | size, [] => (size, 0)
  | size, [i] => if size < d then (size, i) else (size / d, i)
  | size, i :: j :: rest => if size < d then (size, i) else sizeLoop d (size / d) (j :: rest)

/-- `size_in_hrf` (`utils.py` 150-220).  Float arithmetic is modelled exactly
over `ℚ`.  `units`: 0 = metric (divider 1000), 1 = IEC, 2 = legacy
(divider 1024). -/
def size_in_hrf (size_value : Int) (units : Nat) : Except PyErr (ℚ × String) :=
  if ¬(units = 0 ∨ units = 1 ∨ units = 2) then
    .error (.valueError "Invalid units parameter.")
  else if size_value < 0 then
    .error (.valueError "Invalid size value.")
  else
    let divider : ℚ := if units = 0 then 1000 else 1024
    let (hrf_size, index) := sizeLoop divider (size_value : ℚ) [0, 1, 2, 3, 4, 5, 6]
    let hfr_unit :=
      if units = 0 then metric_units.getD index ""
      else if units = 1 then iec_units.getD index ""
      else legacy_units.getD index ""
    .ok (hrf_size, hfr_unit)

/-- The divider of a unit system, for stating the specification. -/
def divFor (units : Nat) : Nat := if units = 0 then 1000 else 1024

/-- The unit-symbol list of a unit system, for stating the specification. -/
def unitsFor (units : Nat) : List String :=
  if units = 0 then metric_units else if units = 1 then iec_units else legacy_units

/-- The specification's description of `size_in_hrf`, written from the spec's
words (`spec.md` §8, "Size round-trip"): the result is
`(n / divider^k, unit_k)` for the largest exponent `k` with
`n / divider^k ≥ 1` (`k = 0` for `n < divider`); `Nat.log` is exactly that
largest exponent. -/
def spec_size_in_hrf (n : Nat) (units : Nat) : ℚ × String :=
  let d := divFor units
  let k := Nat.log d n
  ((n : ℚ) / (d : ℚ) ^ k, (unitsFor units).getD k "")

/-! ## DiskInfo filters (`diskinfo.py` 46-139) -/

/-- `DiskInfo.get_disk_number` (`diskinfo.py` 46-85), with the discovered
disks abstracted to their `DiskType` values.  A `none` or empty filter set is
falsy and replaced by the default. -/
def get_disk_number (disk_types : List Nat) (included excluded : Option (Finset ℕ)) :
    Except PyErr Nat :=
  let inc : Finset ℕ := match included with
    | none => {1, 2, 4}
    | some s => if s = ∅ then {1, 2, 4} else s
  let exc : Finset ℕ := match excluded with
    | none => ∅
    | some s => if s = ∅ then ∅ else s
  if inc ∩ exc ≠ ∅ then
    .error (.valueError "Parameter error: same value on included and excluded list.")
  else
    .ok (disk_types.countP (fun t => decide (t ∈ inc) && !decide (t ∈ exc)))

/-- Stable ascending insertion by disk name, modelling `result.sort()`
(which compares `Disk`s by `__lt__`, i.e. by name). -/
def insertAscByName (x : String × Nat) : List (String × Nat) → List (String × Nat)
  | [] => [x]
  | y :: ys => if x.1 < y.1 then x :: y :: ys else y :: insertAscByName x ys

/-- Stable descending insertion by disk name, modelling
`result.sort(reverse=True)`. -/
def insertDescByName (x : String × Nat) : List (String × Nat) → List (String × Nat)
  | [] => [x]
  | y :: ys => if y.1 < x.1 then x :: y :: ys else y :: insertDescByName x ys

/-- `DiskInfo.get_disk_list` (`diskinfo.py` 87-139), with the discovered
disks abstracted to (name, `DiskType`) pairs. -/
def get_disk_list (disks : List (String × Nat)) (included excluded : Option (Finset ℕ))
    (sorting rev_order : Bool) : Except PyErr (List (String × Nat)) :=
  let inc : Finset ℕ := match included with
    | none => {1, 2, 4}
    | some s => if s = ∅ then {1, 2, 4} else s
  let exc : Finset ℕ := match excluded with
    | none => ∅
    | some s => if s = ∅ then ∅ else s
  if inc ∩ exc ≠ ∅ then
    .error (.valueError "Parameter error: same value on included and excluded list.")
  else
    let result := disks.filter (fun dk => decide (dk.2 ∈ inc) && !decide (dk.2 ∈ exc))
    .ok (if sorting then
           (if rev_order then result.foldl (fun acc x => insertDescByName x acc) []
            else result.foldl (fun acc x => insertAscByName x acc) [])
         else result)

/-! ## Concrete system environments for evaluation -/

/-- A host with one fully readable SSD `sda` (serial `AAA`), one by-id
symlink for it, and no hwmon files. -/
def envSda : SysEnv where
  sysBlock := ["sda"]
  files := fun p =>
    if p == "/sys/block/sda/queue/rotational" then some "0"
    else if p == "/sys/block/sda/size" then some "1000"
    else if p == "/sys/block/sda/queue/physical_block_size" then some "512"
    else if p == "/sys/block/sda/queue/logical_block_size" then some "512"
    else if p == "/sys/block/sda/dev" then some "8:0"
    else if p == "/run/udev/data/b8:0" then some "E:ID_SERIAL_SHORT=AAA"
    else none
  pathExists := fun p => p == "/dev/sda" || p == "/sys/block/sda"
  readlink := fun p =>
    if p == "/dev/disk/by-id/ata-Model_AAA" then some "/dev/sda" else none
  glob := fun _ => []

/-- A host with one NVMe disk `nvme0n1` whose rotational attribute reads
`"0"`. -/
def envNvme : SysEnv where
  sysBlock := ["nvme0n1"]
  files := fun p =>
    if p == "/sys/block/nvme0n1/queue/rotational" then some "0"
    else if p == "/sys/block/nvme0n1/size" then some "100"
    else if p == "/sys/block/nvme0n1/queue/physical_block_size" then some "512"
    else if p == "/sys/block/nvme0n1/queue/logical_block_size" then some "512"
    else if p == "/sys/block/nvme0n1/dev" then some "259:0"
    else none
  pathExists := fun p => p == "/dev/nvme0n1" || p == "/sys/block/nvme0n1"
  readlink := fun _ => none
  glob := fun _ => []

/-- A host with one NVMe disk `nvme0n1` that exists in `/dev` and
`/sys/block` but whose `queue/rotational` attribute file is missing. -/
def envNvmeNoRot : SysEnv where
  sysBlock := ["nvme0n1"]
  files := fun _ => none
  pathExists := fun p => p == "/dev/nvme0n1" || p == "/sys/block/nvme0n1"
  readlink := fun _ => none
  glob := fun _ => []

/-- A host with two SSDs: `sdb` (listed first, WWN `0x5002`, serial `BBB`)
and `sda` (WWN `0x500`, serial `AAA`).  `sda`'s WWN is a substring of
`sdb`'s. -/
def envTwoDisks : SysEnv where
  sysBlock := ["sdb", "sda"]
  files := fun p =>
    if p == "/sys/block/sda/dev" then some "8:0"
    else if p == "/sys/block/sdb/dev" then some "8:16"
    else if p == "/run/udev/data/b8:0" then some "E:ID_WWN=0x500\nE:ID_SERIAL_SHORT=AAA"
    else if p == "/run/udev/data/b8:16" then some "E:ID_WWN=0x5002\nE:ID_SERIAL_SHORT=BBB"
    else if p == "/sys/block/sda/queue/rotational" then some "0"
    else if p == "/sys/block/sdb/queue/rotational" then some "0"
    else if p == "/sys/block/sda/size" then some "100"
    else if p == "/sys/block/sdb/size" then some "200"
    else if p == "/sys/block/sda/queue/physical_block_size" then some "512"
    else if p == "/sys/block/sdb/queue/physical_block_size" then some "512"
    else if p == "/sys/block/sda/queue/logical_block_size" then some "512"
    else if p == "/sys/block/sdb/queue/logical_block_size" then some "512"
    else none
  pathExists := fun p =>
    p == "/dev/sda" || p == "/sys/block/sda" || p == "/dev/sdb" || p == "/sys/block/sdb"
  readlink := fun _ => none
  glob := fun _ => []

/-! ## Theorems -/

theorem string_data_append (a b : String) : (a ++ b).data = a.data ++ b.data := by
  obtain ⟨la⟩ := a
  obtain ⟨lb⟩ := b
  rfl

/-- Shared description of the branch of `get_smart_data` for tool output whose
first line after the prologue is not the start-of-data marker: the call raises
only for the open-device message, otherwise it returns a result carrying only
the standby flag. -/
theorem smart_else_branch (isNvme : Bool) (lines : List String) (l0 : String)
    (rest : List String) (hdrop : lines.drop 3 = l0 :: rest)
    (hm : startsWithS l0 "===" = false) :
    get_smart_data isNvme lines =
      (if pyIn "Smartctl open device" l0 then
        Except.error (PyErr.runtimeError ("Error: " ++ l0))
      else
        Except.ok { standby_mode := pyIn "STANDBY" l0, healthy := none,
                    smart_attributes := none, nvme_attributes := none }) := by
  unfold get_smart_data
  rw [hdrop]
  simp only [hm, Bool.false_eq_true, if_false]

/-- C1: for NVMe disks, given diagnostic-tool text that passes the health line
and reports `Critical Warning: 0x00`, `Temperature: 42 Celsius`,
`Power On Hours: 5,809`, `get_smart_data` returns `critical_warning = 0`,
`temperature = 42`, `power_on_hours = 5809` and `healthy = true`; and in
general the comma thousands-separators of a matched numeric value are deleted
before integer conversion (`re.sub(",", "", …)` distributes over the grouped
digits). -/
theorem c1_nvme_end_to_end :
    get_smart_data true
      ["smartctl 7.2 2020-12-30 r5155 [x86_64-linux-5.10.0-14-amd64] (local build)",
       "Copyright (C) 2002-20, Bruce Allen, Christian Franke, www.smartmontools.org",
       "",
       "=== START OF SMART DATA SECTION ===",
       "SMART overall-health self-assessment test result: PASSED",
       "",
       "SMART/Health Information (NVMe Log 0x02)",
       "Critical Warning:                   0x00",
       "Temperature:                        42 Celsius",
       "Power On Hours:                     5,809",
       ""] =
      Except.ok { standby_mode := false, healthy := some true, smart_attributes := none,
                  nvme_attributes := some { critical_warning := some 0,
                                            temperature := some 42,
                                            power_on_hours := some 5809 } } ∧
    ∀ s t : String, pyRemoveCommas (s ++ "," ++ t) = pyRemoveCommas s ++ pyRemoveCommas t := by
  constructor
  · rfl
  · intro s t
    obtain ⟨ls⟩ := s
    obtain ⟨lt⟩ := t
    show String.mk (((ls ++ [',']) ++ lt).filter (fun c => c != ',')) =
      String.mk (ls.filter (fun c => c != ',') ++ lt.filter (fun c => c != ','))
    rw [List.filter_append, List.filter_append]
    simp

/-- C3 counterexample: tool output whose first line after the prologue is
neither the data-section marker, nor a standby marker, nor the open-device
failure message does NOT make `get_smart_data` fail — it returns a normal
(empty) result, contrary to the claim. -/
theorem c3_cex_unrecognized_line_returns_ok :
    get_smart_data false
      ["smartctl 7.2 2020-12-30 r5155 [x86_64-linux-5.10.0-14-amd64] (local build)",
       "Copyright (C) 2002-20, Bruce Allen, Christian Franke, www.smartmontools.org",
       "",
       "Some unrecognized tool failure text"] =
      Except.ok { standby_mode := false, healthy := none, smart_attributes := none,
                  nvme_attributes := none } := rfl

/-- C3 amended: when the first line after the prologue does not start with the
data-section marker, `get_smart_data` raises the unrecoverable error (which
surfaces the tool's own line) exactly when that line contains the open-device
failure message `"Smartctl open device"`; for any other unrecognized line it
returns a normal result with no health assessment and no attributes (with the
standby flag reflecting a standby marker). -/
theorem c3_amended_open_device_only (isNvme : Bool) (lines : List String) (l0 : String)
    (rest : List String) (hdrop : lines.drop 3 = l0 :: rest)
    (hm : startsWithS l0 "===" = false) :
    get_smart_data isNvme lines =
      (if pyIn "Smartctl open device" l0 then
        Except.error (PyErr.runtimeError ("Error: " ++ l0))
      else
        Except.ok { standby_mode := pyIn "STANDBY" l0, healthy := none,
                    smart_attributes := none, nvme_attributes := none }) :=
  smart_else_branch isNvme lines l0 rest hdrop hm

theorem c3_witness :
    get_smart_data false
      ["smartctl 7.2", "Copyright (C)", "", "Smartctl open device: /dev/sda failed"] =
      Except.error (PyErr.runtimeError ("Error: Smartctl open device: /dev/sda failed")) := by
  have h := c3_amended_open_device_only false
    ["smartctl 7.2", "Copyright (C)", "", "Smartctl open device: /dev/sda failed"]
    "Smartctl open device: /dev/sda failed" [] rfl rfl
  exact h.trans (by decide)

/-- C6 counterexample: a probe line that contains the standby marker but also
the open-device failure message makes `get_smart_data` raise instead of
returning a `standby_mode = true` result, so the claim as stated fails. -/
theorem c6_cex_standby_with_open_device :
    pyIn "STANDBY" "STANDBY: Smartctl open device failed" = true ∧
    get_smart_data false
      ["smartctl 7.2", "Copyright (C)", "", "STANDBY: Smartctl open device failed"] =
      Except.error (PyErr.runtimeError ("Error: STANDBY: Smartctl open device failed")) :=
  ⟨rfl, rfl⟩

/-- C6 amended: if the probe line (the first line after the three-line
prologue) contains the standby marker, does not start with the data-section
marker, and does not contain the open-device failure message, then
`get_smart_data` returns `standby_mode = true` with no attribute extraction
(neither attribute payload populated, no health assessment), regardless of
what text follows the probe line. -/
theorem c6_amended_standby_short_circuit (isNvme : Bool) (lines : List String) (l0 : String)
    (rest : List String) (hdrop : lines.drop 3 = l0 :: rest)
    (hm : startsWithS l0 "===" = false)
    (hsb : pyIn "STANDBY" l0 = true)
    (hod : pyIn "Smartctl open device" l0 = false) :
    get_smart_data isNvme lines =
      Except.ok { standby_mode := true, healthy := none, smart_attributes := none,
                  nvme_attributes := none } := by
  rw [smart_else_branch isNvme lines l0 rest hdrop hm]
  simp [hod, hsb]

theorem c6_witness :
    get_smart_data true
      ["smartctl 7.2", "Copyright (C)", "",
       "Device is in STANDBY mode, exit(2)", "anything", "may", "follow"] =
      Except.ok { standby_mode := true, healthy := none, smart_attributes := none,
                  nvme_attributes := none } :=
  c6_amended_standby_short_circuit true
    ["smartctl 7.2", "Copyright (C)", "",
     "Device is in STANDBY mode, exit(2)", "anything", "may", "follow"]
    "Device is in STANDBY mode, exit(2)" ["anything", "may", "follow"] rfl rfl rfl rfl

/-- C7: NVMe diagnostic text in which the recognized label
`Critical Warning` appears with its value blanked out makes `get_smart_data`
raise the malformed-output `RuntimeError` identifying the offending line — it
never defaults or skips the field — regardless of the lines that follow. -/
theorem c7_blank_value_fatal (rest : List String) :
    get_smart_data true
      (["smartctl 7.2 2020-12-30 r5155 [x86_64-linux-5.10.0-14-amd64] (local build)",
        "Copyright (C) 2002-20, Bruce Allen, Christian Franke, www.smartmontools.org",
        "",
        "=== START OF SMART DATA SECTION ===",
        "SMART overall-health self-assessment test result: PASSED",
        "",
        "SMART/Health Information (NVMe Log 0x02)",
        "Critical Warning:"] ++ rest) =
      Except.error (PyErr.runtimeError "Error in processing this line: Critical Warning:") :=
  rfl

/-- C8: every successfully returned `DiskSmartData` has at most one of the two
attribute payloads populated — never both a legacy attribute list and an NVMe
record — and when the health assessment could not be determined
(`healthy` never assigned) neither payload is populated. -/
theorem c8_schema_exclusivity (isNvme : Bool) (lines : List String) (d : DiskSmartData)
    (h : get_smart_data isNvme lines = Except.ok d) :
    (d.smart_attributes = none ∨ d.nvme_attributes = none) ∧
    (d.healthy = none → d.smart_attributes = none ∧ d.nvme_attributes = none) := by
  unfold get_smart_data at h
  simp only [] at h
  repeat' split at h
  all_goals first
    | (injection h with h2; subst h2; simp)
    | exact absurd h (by simp)

theorem c8_witness :
    get_smart_data true
      ["smartctl 7.2", "Copyright (C)", "", "Device is in STANDBY mode (Exit 2)"] =
      Except.ok { standby_mode := true, healthy := none, smart_attributes := none,
                  nvme_attributes := none } ∧
    ((({ standby_mode := true, healthy := none, smart_attributes := none,
         nvme_attributes := none } : DiskSmartData).smart_attributes = none ∨
      ({ standby_mode := true, healthy := none, smart_attributes := none,
         nvme_attributes := none } : DiskSmartData).nvme_attributes = none) ∧
     (({ standby_mode := true, healthy := none, smart_attributes := none,
         nvme_attributes := none } : DiskSmartData).healthy = none →
      ({ standby_mode := true, healthy := none, smart_attributes := none,
         nvme_attributes := none } : DiskSmartData).smart_attributes = none ∧
      ({ standby_mode := true, healthy := none, smart_attributes := none,
         nvme_attributes := none } : DiskSmartData).nvme_attributes = none)) :=
  ⟨rfl, c8_schema_exclusivity true
    ["smartctl 7.2", "Copyright (C)", "", "Device is in STANDBY mode (Exit 2)"]
    { standby_mode := true, healthy := none, smart_attributes := none,
      nvme_attributes := none } rfl⟩

/-- C9: for every pair of include/exclude disk-type filter sets with a
non-empty intersection, both `get_disk_number` and `get_disk_list` raise the
invalid-argument `ValueError`; the result is the error for every disk list,
i.e. before any counting or filtering contributes. -/
theorem c9_filter_rejection (disk_types : List Nat) (disks : List (String × Nat))
    (inc exc : Finset ℕ) (sorting rev_order : Bool)
    (hov : inc ∩ exc ≠ ∅) :
    get_disk_number disk_types (some inc) (some exc) =
      Except.error (PyErr.valueError
        "Parameter error: same value on included and excluded list.") ∧
    get_disk_list disks (some inc) (some exc) sorting rev_order =
      Except.error (PyErr.valueError
        "Parameter error: same value on included and excluded list.") := by
  have hinc : ¬inc = ∅ := fun h => hov (by rw [h, Finset.empty_inter])
  have hexc : ¬exc = ∅ := fun h => hov (by rw [h, Finset.inter_empty])
  constructor <;> simp [get_disk_number, get_disk_list, hinc, hexc, hov]

theorem c9_witness :
    ({2} : Finset ℕ) ∩ {2} ≠ ∅ ∧
    get_disk_number [1, 2, 4] (some {2}) (some {2}) =
      Except.error (PyErr.valueError
        "Parameter error: same value on included and excluded list.") ∧
    get_disk_list [("sda", 2)] (some {2}) (some {2}) true false =
      Except.error (PyErr.valueError
        "Parameter error: same value on included and excluded list.") :=
  ⟨by decide, (c9_filter_rejection [1, 2, 4] [("sda", 2)] {2} {2} true false (by decide)).1,
    (c9_filter_rejection [1, 2, 4] [("sda", 2)] {2} {2} true false (by decide)).2⟩

/-- C2 counterexample: a device named with the NVMe token whose rotational
attribute is missing does NOT get constructed as NVMe — `Disk.__init__`
raises the type-indeterminate `RuntimeError` because the rotational signal is
consulted before the name check. -/
theorem c2_cex_nvme_requires_rotational :
    pyIn "nvme" "nvme0n1" = true ∧
    diskInit envNvmeNoRot (some "nvme0n1") none none none none =
      Except.error (PyErr.runtimeError
        "Disk type cannot be determined based on this value (/sys/block/nvme0n1/queue/rotational=).") := by
  constructor
  · rfl
  · rfl

/-- C2 amended: when construction succeeds, a device whose name contains the
NVMe token is always classified NVME (the name check overrides the HDD/SSD
result); but the structural name check does not bypass the rotational
heuristic: when the rotational attribute reads neither `"0"` nor `"1"`
(missing or malformed), construction fails with the type-indeterminate
`RuntimeError` even for an nvme-named device. -/
theorem c2_amended_nvme_classification :
    (∀ (env : SysEnv) (name : String) (d : DiskRec),
      pyIn "nvme" name = true → diskBody env name = Except.ok d → d.type = 4) ∧
    (∀ (env : SysEnv) (name : String),
      env.pathExists ("/dev/" ++ name) = true →
      env.pathExists ("/sys/block/" ++ name) = true →
      readFile env ("/sys/block/" ++ name ++ "/queue/rotational") ≠ "1" →
      readFile env ("/sys/block/" ++ name ++ "/queue/rotational") ≠ "0" →
      diskBody env name = Except.error (PyErr.runtimeError
        ("Disk type cannot be determined based on this value (/sys/block/" ++ name ++
         "/queue/rotational=" ++ readFile env ("/sys/block/" ++ name ++ "/queue/rotational") ++
         ")."))) := by
  constructor
  · intro env name d hn h
    unfold diskBody at h
    simp only [] at h
    repeat' split at h
    all_goals first
      | (injection h with h2; subst h2; simp [hn])
      | exact absurd h (by simp)
  · intro env name h1 h2 hr1 hr0
    unfold diskBody
    simp [h1, h2, hr1, hr0]

theorem c2_witness :
    pyIn "nvme" "nvme0n1" = true ∧
    diskBody envNvme "nvme0n1" =
      Except.ok { name := "nvme0n1", path := "/dev/nvme0n1", byid_path := [],
                  bypath_path := [], wwn := "", model := "", serial_number := "",
                  firmware := "", type := 4, size := 100, device_id := "259:0",
                  physical_block_size := 512, logical_block_size := 512,
                  part_table_type := "", part_table_uuid := "", hwmon_path := none } ∧
    ({ name := "nvme0n1", path := "/dev/nvme0n1", byid_path := [],
       bypath_path := [], wwn := "", model := "", serial_number := "",
       firmware := "", type := 4, size := 100, device_id := "259:0",
       physical_block_size := 512, logical_block_size := 512,
       part_table_type := "", part_table_uuid := "", hwmon_path := none } : DiskRec).type = 4 :=
  ⟨rfl, by decide,
    c2_amended_nvme_classification.1 envNvme "nvme0n1"
      { name := "nvme0n1", path := "/dev/nvme0n1", byid_path := [],
        bypath_path := [], wwn := "", model := "", serial_number := "",
        firmware := "", type := 4, size := 100, device_id := "259:0",
        physical_block_size := 512, logical_block_size := 512,
        part_table_type := "", part_table_uuid := "", hwmon_path := none }
      rfl (by decide)⟩

theorem hwmonProbeAll_pathExists (env : SysEnv) (name p : String)
    (h : hwmonProbeAll env name = some p) : env.pathExists p = true := by
  unfold hwmonProbeAll at h
  repeat' split at h
  all_goals first
    | (injection h with h2; subst h2;
       rename_i hp
       unfold probeHwmon at hp
       repeat' split at hp
       all_goals simp_all)
    | exact absurd h (by simp)

theorem diskBody_hwmon (env : SysEnv) (name : String) (d : DiskRec)
    (h : diskBody env name = Except.ok d) : d.hwmon_path = hwmonProbeAll env name := by
  unfold diskBody at h
  simp only [] at h
  repeat' split at h
  all_goals first
    | (injection h with h2; subst h2; rfl)
    | exact absurd h (by simp)

/-- C10: if none of the three probed hwmon layouts matches an existing file at
construction, `hwmon_path` is left unassigned (`none`, never an empty value);
`get_temperature` on such a Disk fails with `AttributeError` (the
attribute-access error), and the guarded `RuntimeError("HWMON file cannot be
found…")` branch — which requires an assigned empty value — is unreachable for
any Disk produced by `__init__` (on any system where `os.path.exists("")` is
false, as on a real OS). -/
theorem c10_hwmon_unassigned (env : SysEnv) (name : String) (d : DiskRec)
    (hne : env.pathExists "" = false)
    (h : diskBody env name = Except.ok d) :
    (probeHwmon env (hwmonPatHdd name) = none →
     probeHwmon env (hwmonPatNvmeOld name) = none →
     probeHwmon env (hwmonPatNvmeNew name) = none →
     d.hwmon_path = none) ∧
    (d.hwmon_path = none → get_temperature env d = Except.error PyErr.attributeError) ∧
    get_temperature env d ≠
      Except.error (PyErr.runtimeError "HWMON file cannot be found for this disk.") := by
  have hd := diskBody_hwmon env name d h
  refine ⟨?_, ?_, ?_⟩
  · intro p1 p2 p3
    rw [hd]
    unfold hwmonProbeAll
    simp [p1, p2, p3]
  · intro hnone
    unfold get_temperature
    rw [hnone]
  · cases hh : d.hwmon_path with
    | none =>
      unfold get_temperature
      rw [hh]
      simp
    | some p =>
      have hp : env.pathExists p = true :=
        hwmonProbeAll_pathExists env name p (hd.symm.trans hh)
      have hpe : ¬p = "" := by
        intro he
        rw [he, hne] at hp
        exact Bool.false_ne_true hp
      unfold get_temperature
      rw [hh]
      simp only [beq_iff_eq]
      rw [if_neg hpe]
      unfold toIntPy
      cases hpd : pyIntDec (readFile env p) <;> simp [hpd]

theorem c10_witness :
    diskBody envSda "sda" =
      Except.ok { name := "sda", path := "/dev/sda", byid_path := [], bypath_path := [],
                  wwn := "", model := "", serial_number := "AAA", firmware := "",
                  type := 2, size := 1000, device_id := "8:0",
                  physical_block_size := 512, logical_block_size := 512,
                  part_table_type := "", part_table_uuid := "", hwmon_path := none } ∧
    get_temperature envSda
      { name := "sda", path := "/dev/sda", byid_path := [], bypath_path := [],
        wwn := "", model := "", serial_number := "AAA", firmware := "",
        type := 2, size := 1000, device_id := "8:0",
        physical_block_size := 512, logical_block_size := 512,
        part_table_type := "", part_table_uuid := "", hwmon_path := none } =
      Except.error PyErr.attributeError ∧
    get_temperature envSda
      { name := "sda", path := "/dev/sda", byid_path := [], bypath_path := [],
        wwn := "", model := "", serial_number := "AAA", firmware := "",
        type := 2, size := 1000, device_id := "8:0",
        physical_block_size := 512, logical_block_size := 512,
        part_table_type := "", part_table_uuid := "", hwmon_path := none } ≠
      Except.error (PyErr.runtimeError "HWMON file cannot be found for this disk.") := by
  have h : diskBody envSda "sda" =
      Except.ok { name := "sda", path := "/dev/sda", byid_path := [], bypath_path := [],
                  wwn := "", model := "", serial_number := "AAA", firmware := "",
                  type := 2, size := 1000, device_id := "8:0",
                  physical_block_size := 512, logical_block_size := 512,
                  part_table_type := "", part_table_uuid := "", hwmon_path := none } := by
    decide
  have hc := c10_hwmon_unassigned envSda "sda" _ (by decide) h
  exact ⟨h, hc.2.1 rfl, hc.2.2⟩

/-- C5 counterexample: on a host with two disks where `sda`'s WWN (`0x500`)
is a substring of `sdb`'s WWN (`0x5002`) and `sdb` is listed first,
constructing by `sda`'s exact WWN yields the disk `sdb`, not `sda` — the WWN
comparison is substring containment, so resolution by WWN is not equivalent
to resolution by name. -/
theorem c5_cex_wwn_substring :
    readUdevProperty envTwoDisks "8:0" "ID_WWN=" = "0x500" ∧
    (diskInit envTwoDisks (some "sda") none none none none).map DiskRec.name =
      Except.ok "sda" ∧
    (diskInit envTwoDisks none none (some "0x500") none none).map DiskRec.name =
      Except.ok "sdb" :=
  ⟨rfl, by decide, by decide⟩

/-- C5 amended: each identifier is resolved to a canonical device name and the
whole attribute record is then a function of that name alone, so by-id /
by-path resolution (when the symlink's target basename is the device name)
and serial / WWN resolution (when the linear scan's first hit is the device)
construct a Disk identical in every attribute to construction by name.  The
serial scan takes the first enumerated device with an equal serial; the WWN
scan takes the first device whose WWN merely *contains* the requested value.
Both scans fail with the not-found `ValueError` when no device matches. -/
theorem c5_amended_resolution :
    (∀ (env : SysEnv) (n b t : String), n ≠ "" → b ≠ "" →
      env.readlink ("/dev/disk/by-id/" ++ b) = some t → basenamePy t = n →
      diskInit env none none none (some b) none =
        diskInit env (some n) none none none none) ∧
    (∀ (env : SysEnv) (n b t : String), n ≠ "" → b ≠ "" →
      env.readlink ("/dev/disk/by-path/" ++ b) = some t → basenamePy t = n →
      diskInit env none none none none (some b) =
        diskInit env (some n) none none none none) ∧
    (∀ (env : SysEnv) (s n : String), s ≠ "" → n ≠ "" →
      serialScan env s = some n →
      diskInit env none (some s) none none none =
        diskInit env (some n) none none none none) ∧
    (∀ (env : SysEnv) (w n : String), w ≠ "" → n ≠ "" →
      wwnScan env w = some n →
      diskInit env none none (some w) none none =
        diskInit env (some n) none none none none) ∧
    (∀ (env : SysEnv) (s : String), s ≠ "" → serialScan env s = none →
      diskInit env none (some s) none none none =
        Except.error (PyErr.valueError ("Invalid serial number (" ++ s ++ ")!"))) ∧
    (∀ (env : SysEnv) (w : String), w ≠ "" → wwnScan env w = none →
      diskInit env none none (some w) none none =
        Except.error (PyErr.valueError ("Invalid wwn identifier (" ++ w ++ ")!"))) := by
  refine ⟨?_, ?_, ?_, ?_, ?_, ?_⟩
  · intro env n b t hn hb hl hbase
    unfold diskInit resolveName
    simp [truthy, hn, hb, hl, hbase]
  · intro env n b t hn hb hl hbase
    unfold diskInit resolveName
    simp [truthy, hn, hb, hl, hbase]
  · intro env s n hs hn hscan
    unfold diskInit resolveName
    simp [truthy, hs, hn, hscan]
  · intro env w n hw hn hscan
    unfold diskInit resolveName
    simp [truthy, hw, hn, hscan]
  · intro env s hs hscan
    unfold diskInit resolveName
    simp [truthy, hs, hscan]
  · intro env w hw hscan
    unfold diskInit resolveName
    simp [truthy, hw, hscan]

theorem c5_witness :
    diskInit envSda none none none (some "ata-Model_AAA") none =
      diskInit envSda (some "sda") none none none none ∧
    diskInit envSda none (some "AAA") none none none =
      diskInit envSda (some "sda") none none none none :=
  ⟨c5_amended_resolution.1 envSda "sda" "ata-Model_AAA" "/dev/sda"
      (by decide) (by decide) rfl rfl,
    (c5_amended_resolution.2.2.1) envSda "AAA" "sda" (by decide) (by decide) rfl⟩

theorem sizeLoop_break (d : ℚ) :
    ∀ (l : List Nat) (size : ℚ) (k : Nat), k < l.length →
      (∀ j, j < k → d ≤ size / d ^ j) → size / d ^ k < d →
      sizeLoop d size l = (size / d ^ k, l.getD k 0) := by
  intro l
  induction l with
  | nil =>
    intro size k hk
    exact absurd hk (by simp)
  | cons i rest ih =>
    intro size k hk hge hlt
    cases k with
    | zero =>
      have hs : size < d := by simpa using hlt
      cases rest with
      | nil => simp [sizeLoop, hs]
      | cons j rs => simp [sizeLoop, hs]
    | succ k =>
      have h0 : d ≤ size := by simpa using hge 0 (Nat.succ_pos k)
      have hns : ¬size < d := not_lt.mpr h0
      cases rest with
      | nil => simp at hk
      | cons j rs =>
        have hk2 : k < (j :: rs).length := by
          simpa using Nat.lt_of_succ_lt_succ (by simpa using hk)
        have hge2 : ∀ m, m < k → d ≤ size / d / d ^ m := by
          intro m hm
          rw [div_div, ← pow_succ']
          exact hge (m + 1) (Nat.succ_lt_succ hm)
        have hlt2 : size / d / d ^ k < d := by
          rw [div_div, ← pow_succ']
          exact hlt
        calc sizeLoop d size (i :: j :: rs) = sizeLoop d (size / d) (j :: rs) := by
              simp only [sizeLoop]
              rw [if_neg hns]
          _ = (size / d / d ^ k, (j :: rs).getD k 0) := ih (size / d) k hk2 hge2 hlt2
          _ = (size / d ^ (k + 1), (i :: j :: rs).getD (k + 1) 0) := by
              rw [div_div, ← pow_succ']
              rfl

theorem sizeLoop_eval (D : Nat) (hD : 1 < D) (n : Nat) (hn : n < D ^ 7) :
    sizeLoop (D : ℚ) (n : ℚ) [0, 1, 2, 3, 4, 5, 6] =
      ((n : ℚ) / (D : ℚ) ^ Nat.log D n, Nat.log D n) ∧ Nat.log D n < 7 := by
  have hlog : Nat.log D n < 7 := by
    rcases Nat.eq_zero_or_pos n with h0 | h0
    · simp [h0, Nat.log_zero_right]
    · exact Nat.log_lt_of_lt_pow h0.ne' hn
  refine ⟨?_, hlog⟩
  have hD0 : (0 : ℚ) < (D : ℚ) := by exact_mod_cast lt_trans Nat.zero_lt_one hD
  have hge : ∀ j, j < Nat.log D n → (D : ℚ) ≤ (n : ℚ) / (D : ℚ) ^ j := by
    intro j hj
    have hn0 : n ≠ 0 := by
      intro h0
      rw [h0] at hj
      simp [Nat.log_zero_right] at hj
    have hle : D ^ (j + 1) ≤ n :=
      le_trans (Nat.pow_le_pow_right (le_of_lt hD) hj) (Nat.pow_log_le_self D hn0)
    rw [le_div_iff₀ (pow_pos hD0 j)]
    calc (D : ℚ) * (D : ℚ) ^ j = (D : ℚ) ^ (j + 1) := (pow_succ' _ _).symm
      _ ≤ (n : ℚ) := by exact_mod_cast hle
  have hlt : (n : ℚ) / (D : ℚ) ^ Nat.log D n < (D : ℚ) := by
    rw [div_lt_iff₀ (pow_pos hD0 _)]
    calc (n : ℚ) < (D : ℚ) ^ (Nat.log D n + 1) := by
          exact_mod_cast Nat.lt_pow_succ_log_self hD n
      _ = (D : ℚ) * (D : ℚ) ^ Nat.log D n := pow_succ' _ _
  have hgd : ∀ m : Nat, m < 7 → ([0, 1, 2, 3, 4, 5, 6] : List Nat).getD m 0 = m := by decide
  rw [sizeLoop_break (D : ℚ) [0, 1, 2, 3, 4, 5, 6] (n : ℚ) (Nat.log D n)
      (by simpa using hlog) hge hlt, hgd _ hlog]

theorem size_in_hrf_nat (n : Nat) (units : Nat) (hu : units = 0 ∨ units = 1 ∨ units = 2) :
    size_in_hrf (n : Int) units =
      Except.ok ((sizeLoop ((divFor units : Nat) : ℚ) (n : ℚ) [0, 1, 2, 3, 4, 5, 6]).1,
        (unitsFor units).getD (sizeLoop ((divFor units : Nat) : ℚ) (n : ℚ)
          [0, 1, 2, 3, 4, 5, 6]).2 "") := by
  have hnn : ¬((n : Int) < 0) := not_lt.mpr (Int.natCast_nonneg n)
  unfold size_in_hrf divFor unitsFor
  rcases hu with h | h | h <;> subst h <;> simp [hnn]

/-- C4 counterexample: at `n = 1000^8` bytes the claim's formula fails — the
largest `k` with `n / 1000^k ≥ 1` is 8, past the end of the unit list, and the
code instead returns `(1000, "EB")` (the value divided once more than the
unit it is paired with), not `(n / 1000^k, unit_k)`. -/
theorem c4_cex_size_overflow :
    size_in_hrf (1000000000000000000000000 : Int) 0 = Except.ok ((1000 : ℚ), "EB") ∧
    spec_size_in_hrf 1000000000000000000000000 0 = ((1 : ℚ), "") ∧
    size_in_hrf (1000000000000000000000000 : Int) 0 ≠
      Except.ok (spec_size_in_hrf 1000000000000000000000000 0) := by
  have ha : size_in_hrf (1000000000000000000000000 : Int) 0 =
      Except.ok ((1000 : ℚ), "EB") := by
    unfold size_in_hrf
    norm_num [sizeLoop, metric_units]
  have hpow : (1000000000000000000000000 : Nat) = 1000 ^ 8 := by norm_num
  have hlog : Nat.log 1000 1000000000000000000000000 = 8 := by
    rw [hpow, Nat.log_pow (by norm_num : 1 < 1000)]
  have hb : spec_size_in_hrf 1000000000000000000000000 0 = ((1 : ℚ), "") := by
    unfold spec_size_in_hrf divFor unitsFor
    simp only []
    norm_num [hlog, metric_units, List.getD_cons_succ, List.getD_cons_zero, List.getD_nil]
  refine ⟨ha, hb, ?_⟩
  rw [ha, hb]
  intro hcontra
  simp only [Except.ok.injEq, Prod.mk.injEq] at hcontra
  exact absurd hcontra.1 (by norm_num)

/-- C4 amended: for every byte count `n` *below the capacity of the unit
table* (`n < divider^7`), `size_in_hrf (n, units)` returns exactly
`(n / divider^k, unit_k)` where `k` is the largest exponent with
`n / divider^k ≥ 1` (`k = 0` when `n < divider`), with divider 1000 for the
metric system and 1024 for the IEC and legacy systems; at `n ≥ divider^7` the
code instead divides a seventh time while the unit stays the largest symbol
(see the counterexample). -/
theorem c4_amended_size_round_trip (n : Nat) (units : Nat)
    (hu : units = 0 ∨ units = 1 ∨ units = 2) (hn : n < divFor units ^ 7) :
    size_in_hrf (n : Int) units = Except.ok (spec_size_in_hrf n units) := by
  have hD : 1 < divFor units := by
    unfold divFor
    split <;> norm_num
  obtain ⟨hloop, hlog⟩ := sizeLoop_eval (divFor units) hD n hn
  rw [size_in_hrf_nat n units hu, hloop]
  unfold spec_size_in_hrf
  rfl

theorem c4_witness :
    size_in_hrf (4398046511104 : Int) 0 =
      Except.ok ((4398046511104 : ℚ) / 1000 ^ 4, "TB") := by
  have h := c4_amended_size_round_trip 4398046511104 0 (Or.inl rfl)
    (by norm_num [divFor])
  have hlog : Nat.log 1000 4398046511104 = 4 := by
    apply Nat.log_eq_of_pow_le_of_lt_pow <;> norm_num
  rw [show ((4398046511104 : Nat) : Int) = (4398046511104 : Int) from rfl] at h
  rw [h]
  unfold spec_size_in_hrf divFor unitsFor
  simp only []
  norm_num [hlog, metric_units, List.getD_cons_succ, List.getD_cons_zero]
